import Mathlib

/-!
Verification of the Monzo-Viewer Flask application (`monzo_viewer/app.py`)
against its natural-language specification.

The source is a thin routing layer: each Flask route handler reads form or
query input, calls the external `monzo` SDK (authentication, account fetch,
transaction fetch, feed-item creation, raw requests), and selects a template
to render.  We embed each handler as a pure Lean function.  External SDK
calls are passed in as parameters (their outcomes, or functions producing
outcomes), and each handler's result records which provider calls were
dispatched, what was written to the credential store, and the view that was
rendered (or the exception kind that propagated out of the handler).
-/

namespace MonzoViewer

/-- Submitted form data (`request.form` / `request.args`): an ordered list of
key/value pairs; lookup returns the first value bound to a key, `none` when
the key is absent. -/
def Form := List (String × String)

/-- Lookup of a form field, mirroring `request.form.get(key)` /
`key in request.form` followed by `request.form[key]`. -/
def Form.get? (f : Form) (k : String) : Option String :=
  (List.find? (fun kv => kv.1 == k) f).map (fun kv => kv.2)

/-- The apostrophe character (code point 39). -/
def apos : Char := Char.ofNat 39

/-- The double-quote character (code point 34). -/
def quot : Char := Char.ofNat 34

/-- Per-character HTML escaping, as performed by `markupsafe.escape` (which
Flask re-exports as `flask.escape`): the five HTML-special characters become
entities, every other character is kept. -/
def escape_char (c : Char) : List Char :=
  if c = '&' then ['&', 'a', 'm', 'p', ';']
  else if c = '>' then ['&', 'g', 't', ';']
  else if c = '<' then ['&', 'l', 't', ';']
  else if c = apos then ['&', '#', '3', '9', ';']
  else if c = quot then ['&', '#', '3', '4', ';']
  else [c]

/-- HTML escaping on a character list. -/
def escapeL : List Char → List Char
  | [] => []
  | c :: cs => escape_char c ++ escapeL cs

/-- HTML escaping of a string (`flask.escape`). -/
def escape (s : String) : String := ⟨escapeL s.data⟩

/-- The five HTML-special characters. -/
def special (c : Char) : Prop := c = '&' ∨ c = '>' ∨ c = '<' ∨ c = apos ∨ c = quot

instance (c : Char) : Decidable (special c) := by
  unfold special; infer_instance

theorem escape_char_ne_nil (c : Char) : escape_char c ≠ [] := by
  unfold escape_char
  repeat' split
  all_goals simp

theorem escapeL_eq_nil_iff (l : List Char) : escapeL l = [] ↔ l = [] := by
  cases l with
  | nil => simp [escapeL]
  | cons c cs =>
    simp only [escapeL, List.append_eq_nil]
    constructor
    · rintro ⟨h, -⟩; exact absurd h (escape_char_ne_nil c)
    · intro h; exact absurd h (by simp)

/-- `escape` maps the empty string to the empty string and nothing else. -/
theorem escape_eq_empty_iff (s : String) : escape s = "" ↔ s = "" := by
  cases s with
  | mk data =>
    simp only [escape, String.ext_iff]
    exact escapeL_eq_nil_iff data

theorem escape_char_of_not_special {c : Char} (h : ¬ special c) :
    escape_char c = [c] := by
  unfold escape_char
  unfold special at h
  push_neg at h
  obtain ⟨h1, h2, h3, h4, h5⟩ := h
  simp [h1, h2, h3, h4, h5]

theorem escapeL_of_no_special {l : List Char} (h : ∀ c ∈ l, ¬ special c) :
    escapeL l = l := by
  induction l with
  | nil => rfl
  | cons c cs ih =>
    simp only [escapeL]
    rw [escape_char_of_not_special (h c (by simp)),
      ih (fun d hd => h d (by simp [hd]))]
    rfl

theorem amp_mem_escape_char_of_special {c : Char} (h : special c) :
    '&' ∈ escape_char c := by
  unfold escape_char
  rcases h with h | h | h | h | h <;> subst h <;> simp [apos, quot]

theorem amp_mem_escapeL_of_special {l : List Char} {c : Char}
    (hc : c ∈ l) (hs : special c) : '&' ∈ escapeL l := by
  induction l with
  | nil => simp at hc
  | cons d ds ih =>
    simp only [escapeL, List.mem_append]
    rcases List.mem_cons.mp hc with h | h
    · exact Or.inl (h ▸ amp_mem_escape_char_of_special hs)
    · exact Or.inr (ih h)

/-- If `escape s` equals a string containing no ampersand, then `s` already
equalled it: escaping is the identity on such preimages. -/
theorem eq_of_escape_eq_of_no_amp {s t : String} (h : escape s = t)
    (ht : '&' ∉ t.data) : s = t := by
  by_cases hsp : ∀ c ∈ s.data, ¬ special c
  · have : escape s = s := by
      cases s with
      | mk data => simp only [escape]; rw [escapeL_of_no_special hsp]
    rw [this] at h; exact h
  · push_neg at hsp
    obtain ⟨c, hc, hs⟩ := hsp
    have hamp : '&' ∈ (escape s).data :=
      amp_mem_escapeL_of_special hc hs
    rw [h] at hamp
    exact absurd hamp ht

/-- An account, as far as the viewer inspects it: its `account_type()` string
(e.g. `"Loan"`, `"Loan (Flex)"`, `"Current Account"`) plus an identifier. -/
structure Account where
  id : String
  account_type : String
  deriving Repr, DecidableEq

/-- The body of the `for account in account_list` loop of `fetch_accounts`:
appends each account whose type is not in `('Loan (Flex)', 'Loan')` to the
accumulator `selected_accounts`. -/
def fetch_accounts_loop (selected_accounts : List Account) :
    List Account → List Account
  | [] => selected_accounts
  | account :: rest =>
    if account.account_type ≠ "Loan (Flex)" ∧ account.account_type ≠ "Loan" then
      fetch_accounts_loop (selected_accounts ++ [account]) rest
    else
      fetch_accounts_loop selected_accounts rest

/-- `fetch_accounts(auth, all_accounts)` of `app.py`, with the result of the
provider call `Account.fetch(auth=auth)` passed in as `account_list`. -/
def fetch_accounts (account_list : List Account) (all_accounts : Bool) :
    List Account :=
  if !all_accounts then
    fetch_accounts_loop [] account_list
  else
    account_list

theorem fetch_accounts_loop_eq_filter (acc l) :
    fetch_accounts_loop acc l =
      acc ++ l.filter
        (fun a => !(a.account_type == "Loan (Flex)" || a.account_type == "Loan")) := by
  induction l generalizing acc with
  | nil => simp [fetch_accounts_loop]
  | cons a rest ih =>
    by_cases h1 : a.account_type = "Loan (Flex)"
    · simp [fetch_accounts_loop, List.filter_cons, h1, ih]
    · by_cases h2 : a.account_type = "Loan"
      · simp [fetch_accounts_loop, List.filter_cons, h1, h2, ih]
      · simp [fetch_accounts_loop, List.filter_cons, h1, h2, ih]

/-- C1: `fetch_accounts` with `all_accounts=false` returns exactly the
accounts whose type is neither `"Loan (Flex)"` nor `"Loan"`, in their
original order, and with `all_accounts=true` returns the provider's list
unfiltered. -/
theorem c1_fetch_accounts_filters_loans (account_list : List Account) :
    fetch_accounts account_list true = account_list ∧
    fetch_accounts account_list false =
      account_list.filter
        (fun a => !(a.account_type == "Loan (Flex)" || a.account_type == "Loan")) := by
  refine ⟨rfl, ?_⟩
  simp [fetch_accounts, fetch_accounts_loop_eq_filter]

/-- The exception kinds of the `monzo` SDK caught anywhere in `app.py`:
`MonzoPermissionsError`, `MonzoHTTPError`, `MonzoAuthenticationError`,
`MonzoServerError`. -/
inductive MonzoError
  | permissionsError
  | httpError
  | authenticationError
  | serverError
  deriving Repr, DecidableEq

/-- An error escaping a handler, seen from the handler boundary: either an
uncaught `monzo` SDK exception, a `json.loads` decode failure, or a `KeyError`
from a missing required form field. -/
inductive AppError
  | monzo (e : MonzoError)
  | jsonDecode
  | keyError (field : String)
  deriving Repr, DecidableEq

/-- The response a handler produces: either `render_template(template, ...)`
with an optional user-facing message in the context, or `redirect(url)`. -/
inductive View
  | render (template : String) (message : Option String)
  | redirect (url : String)
  deriving Repr, DecidableEq

/-- A JSON value, the result of `json.loads` on the `headers`/`parameters`
form fields and the payload of raw provider responses. -/
inductive Json
  | null
  | bool (b : Bool)
  | num (n : Int)
  | str (s : String)
  | arr (xs : List Json)
  | obj (kvs : List (String × Json))

/-- A value that is either a Python string or a Python list of strings:
`request.form.get(key, default)` in `raw_request` uses list literals
(`['get']`, `['/']`) as defaults, so the value passed downstream has this
union type. -/
inductive PyVal
  | str (s : String)
  | strList (l : List String)
  deriving Repr, DecidableEq

/-- The keyword arguments of `get_raw_request` as assembled by the
`raw_request` handler (which forwards them to `auth.make_request`). -/
structure RawReq where
  path : PyVal
  authenticated : Bool
  request_type : PyVal
  headers : Json
  parameters : Json

/-- The arguments of `FeedItem.create` as assembled by the `feed_iten`
handler: the account id, the `params` dict (insertion order kept), and the
optional feed-item URL. -/
structure FeedItemCall where
  account_id : String
  params : List (String × String)
  url : Option String
  deriving Repr, DecidableEq

/-- A provider-side call dispatched by a handler. -/
inductive Call
  | accountFetch
  | feedItemCreate (c : FeedItemCall)
  | transactionFetch (account_id : String) (since : Int) (expand : List String)
  | rawRequest (r : RawReq)
  | authenticate (code state : String)

/-- What running a handler did: the provider calls it dispatched, in order,
and its outcome — `.ok view` when a response was rendered, `.error e` when an
exception of kind `e` propagated out of the handler. -/
structure HResult where
  calls : List Call
  outcome : Except AppError View

/-- `get_raw_request` of `app.py`: performs `auth.make_request` (modelled by
the function argument `make_request`), substitutes a message record when a
`MonzoPermissionsError` or `MonzoHTTPError` is raised, and lets any other
exception propagate. -/
def get_raw_request (make_request : RawReq → Except MonzoError Json)
    (req : RawReq) : Except MonzoError Json :=
  match make_request req with
  | .ok res => .ok res
  | .error .permissionsError =>
    .ok (Json.obj [("message", Json.str "The request resulted in a permissions error.")])
  | .error .httpError =>
    .ok (Json.obj [("message", Json.str "The request appears invalid.")])
  | .error e => .error e

/-- Seconds in the `timedelta(days=30)` window used by the transactions
handler. -/
def thirtyDays : Int := 30 * 24 * 60 * 60

/-- The `raw_request` handler of `app.py`.  `loads` models `json.loads`
(`.error ()` = `JSONDecodeError`); `make_request` models
`auth.make_request`; `method` is `request.method`; `form` is `request.form`.
Note that `authenticated` is `bool(request.form.get('authenticated', True))`
(Python truthiness of the string when the field is present) and that
`request_type` is read from the form field named `'authenticated'` as well,
with the list `['get']` as its default. -/
def raw_request (loads : String → Except Unit Json)
    (make_request : RawReq → Except MonzoError Json)
    (method : String) (form : Form) : HResult :=
  if method = "GET" then
    { calls := [], outcome := .ok (.render "raw_request.html" none) }
  else
    let authenticated : Bool :=
      match form.get? "authenticated" with
      | none => true
      | some s => s ≠ ""
    let request_type : PyVal :=
      match form.get? "authenticated" with
      | none => .strList ["get"]
      | some s => .str s
    match (match form.get? "headers" with
           | none => Except.ok (Json.obj [])
           | some h => loads h) with
    | .error _ => { calls := [], outcome := .error .jsonDecode }
    | .ok headers =>
      match (match form.get? "parameters" with
             | some p => if p ≠ "" then loads p else .ok (Json.obj [])
             | none => .ok (Json.obj [])) with
      | .error _ => { calls := [], outcome := .error .jsonDecode }
      | .ok monzo_parameters =>
        let path : PyVal :=
          match form.get? "path" with
          | none => .strList ["/"]
          | some p => .str p
        let req : RawReq :=
          { path := path, authenticated := authenticated,
            request_type := request_type, headers := headers,
            parameters := monzo_parameters }
        match get_raw_request make_request req with
        | .ok _ =>
          { calls := [.rawRequest req],
            outcome := .ok (.render "raw_request_result.html" none) }
        | .error e => { calls := [.rawRequest req], outcome := .error (.monzo e) }

/-- The `transactions_for_account` handler of `app.py` (POST-only route
`/transactions`).  `fetchT` models `Transaction.fetch` keyed by account id,
`since` timestamp, and `expand` list; `now` models `datetime.now()` as an
epoch timestamp in seconds. -/
def transactions_for_account (fetchT : String → Int → List String → Except MonzoError Unit)
    (now : Int) (form : Form) : HResult :=
  if (match form.get? "account" with
      | some v => escape v != ""
      | none => false) then
    let account := escape ((form.get? "account").getD "")
    if account = "Please Select" then
      { calls := [], outcome := .ok (.render "error.html" (some "No account specified.")) }
    else
      let since := now - thirtyDays
      match fetchT account since ["merchant"] with
      | .ok _ =>
        { calls := [.transactionFetch account since ["merchant"]],
          outcome := .ok (.render "transactions.html" none) }
      | .error .permissionsError =>
        { calls := [.transactionFetch account since ["merchant"]],
          outcome := .ok (.render "error.html" (some
            ("The API returned a permissions issue. Either the token has expired or the account cannot return "
              ++ "transactions."))) }
      | .error e =>
        { calls := [.transactionFetch account since ["merchant"]],
          outcome := .error (.monzo e) }
  else
    { calls := [], outcome := .ok (.render "error.html" (some "No account specified.")) }

/-- The credential store (`MONZO_HANDLER`, a `monzo_viewer.misc.FileSystem`).
Only the fields the handlers read are modelled. -/
structure MonzoHandler where
  client_id : String
  client_secret : String
  deriving Repr, DecidableEq

/-- Modelled from the spec: `monzo_viewer/misc.py` is not under `src/`, so
`FileSystem.set_client_details` is modelled from the spec's Credential Store
contract — `save(Credentials)` overwrites the stored client id and client
secret with the given values. -/
def set_client_details (h : MonzoHandler) (client_id client_secret : String) :
    MonzoHandler :=
  { h with client_id := client_id, client_secret := client_secret }

/-- What running the `setup` handler did: the arguments passed to
`MONZO_HANDLER.set_client_details` (or `none` when the store was not
written), the resulting store state, and the outcome. -/
structure SetupResult where
  wrote_args : Option (String × String)
  store : MonzoHandler
  outcome : Except AppError View
  deriving Repr

/-- The `setup` handler of `app.py` (route `/setup/`).  `auth_url` models the
external `Authentication(...).authentication_url` property as a function of
the client id and client secret the `Authentication` object was built from;
`h` is the credential store state. -/
def setup (auth_url : String → String → String) (h : MonzoHandler)
    (method : String) (form : Form) : SetupResult :=
  if method = "GET" then
    { wrote_args := none, store := h, outcome := .ok (.render "setup.html" none) }
  else
    match form.get? "client_id" with
    | none => { wrote_args := none, store := h, outcome := .error (.keyError "client_id") }
    | some client_id0 =>
      match form.get? "client_secret" with
      | none => { wrote_args := none, store := h, outcome := .error (.keyError "client_secret") }
      | some client_secret0 =>
        let client_id_value := escape client_id0
        let client_secret_value := escape client_secret0
        if client_id_value.length = 0 ∨ client_secret_value.length = 0 then
          { wrote_args := none, store := h,
            outcome := .ok (.render "setup.html" (some
              "Ensure you enter both a Client ID and a Client Secret.")) }
        else
          let h2 := set_client_details h client_id_value client_secret_value
          { wrote_args := some (client_id_value, client_secret_value), store := h2,
            outcome := .ok (.redirect (auth_url h2.client_id h2.client_secret)) }

/-- What running the `setup_callback` handler did: whether the
`Authentication` adapter was constructed, the arguments of the
`auth.authenticate` exchange when it was invoked, and the outcome. -/
structure CallbackResult where
  constructed : Bool
  exchange_invoked : Option (String × String)
  outcome : Except AppError View
  deriving Repr

/-- The `setup_callback` handler of `app.py` (route `/setup/callback/`).
`authenticate` models `auth.authenticate(authorization_token, state_token)`;
`args` is `request.args`. -/
def setup_callback (authenticate : String → String → Except MonzoError Unit)
    (args : Form) : CallbackResult :=
  match args.get? "code", args.get? "state" with
  | some code, some state =>
    (match authenticate code state with
     | .ok _ =>
       { constructed := true, exchange_invoked := some (code, state),
         outcome := .ok (.render "success.html" none) }
     | .error .authenticationError =>
       { constructed := true, exchange_invoked := some (code, state),
         outcome := .ok (.render "error.html" (some "Monzo authentication error.")) }
     | .error .serverError =>
       { constructed := true, exchange_invoked := some (code, state),
         outcome := .ok (.render "error.html" (some "Monzo server error.")) }
     | .error e =>
       { constructed := true, exchange_invoked := some (code, state),
         outcome := .error (.monzo e) })
  | _, _ =>
    { constructed := false, exchange_invoked := none,
      outcome := .ok (.render "error.html" (some "Missing parameters.")) }

/-- The `accounts` handler of `app.py` (route `/accounts`).  `configured` is
`MONZO_HANDLER.is_configured`; `fetch` is the outcome of the provider call
`Account.fetch` inside `fetch_accounts(auth, all_accounts=True)`.  Only a
`MonzoPermissionsError` is caught. -/
def accounts (configured : Bool) (fetch : Except MonzoError (List Account)) :
    HResult :=
  if !configured then
    { calls := [], outcome := .ok (.redirect "/setup/") }
  else
    match fetch with
    | .ok account_list =>
      let _ := fetch_accounts account_list true
      { calls := [.accountFetch], outcome := .ok (.render "accounts.html" none) }
    | .error .permissionsError =>
      { calls := [.accountFetch],
        outcome := .ok (.render "error.html" (some "The request resulted in a permissions error.")) }
    | .error e => { calls := [.accountFetch], outcome := .error (.monzo e) }

/-- The optional form fields of the `feed_iten` handler, in source order. -/
def optional_parameters : List String :=
  ["body", "title_color", "body_color", "background_color", "image_url"]

/-- The `feed_iten` handler of `app.py` (route `/feed_item`, name as in the
source).  `fetch` is the outcome of `Account.fetch` inside the
`fetch_accounts(auth, all_accounts=False)` call that builds the context (made
before the method check and outside any `try`); `create` models
`FeedItem.create`.  On POST, the required `title` and `account` fields raise
`KeyError` when absent; every user-supplied text field is passed through
`escape`. -/
def feed_iten (fetch : Except MonzoError (List Account))
    (create : FeedItemCall → Except MonzoError Unit)
    (method : String) (form : Form) : HResult :=
  match fetch with
  | .error e => { calls := [.accountFetch], outcome := .error (.monzo e) }
  | .ok account_list =>
    let _ := fetch_accounts account_list false
    if method = "GET" then
      { calls := [.accountFetch], outcome := .ok (.render "feed_item_form.html" none) }
    else
      match form.get? "title" with
      | none => { calls := [.accountFetch], outcome := .error (.keyError "title") }
      | some title =>
        let parameters : List (String × String) :=
          ("title", escape title) ::
            optional_parameters.filterMap
              (fun p => (form.get? p).map (fun v => (p, escape v)))
        match form.get? "account" with
        | none => { calls := [.accountFetch], outcome := .error (.keyError "account") }
        | some account0 =>
          let account := escape account0
          let feed_item_url := (form.get? "feed_item_url").map escape
          let c : FeedItemCall :=
            { account_id := account, params := parameters, url := feed_item_url }
          match create c with
          | .ok _ =>
            { calls := [.accountFetch, .feedItemCreate c],
              outcome := .ok (.render "message.html" (some "Feed item posted successfully.")) }
          | .error .httpError =>
            { calls := [.accountFetch, .feedItemCreate c],
              outcome := .ok (.render "error.html" (some "The Monzo API did not understand the request.")) }
          | .error .permissionsError =>
            { calls := [.accountFetch, .feedItemCreate c],
              outcome := .ok (.render "error.html" (some "The request resulted in a permissions error.")) }
          | .error e =>
            { calls := [.accountFetch, .feedItemCreate c],
              outcome := .error (.monzo e) }

theorem str_length_eq_zero_iff (s : String) : s.length = 0 ↔ s = "" := by
  cases s with
  | mk l => simp [String.length, String.ext_iff]

theorem escape_ne_empty {v : String} (h : v ≠ "") : escape v ≠ "" :=
  fun c => h ((escape_eq_empty_iff v).mp c)

theorem escape_ne_please {v : String} (h : v ≠ "Please Select") :
    escape v ≠ "Please Select" :=
  fun c => h (eq_of_escape_eq_of_no_amp c (by decide))

/-- C7: a POST to `/transactions` whose `account` field is absent, empty, or
the placeholder `"Please Select"` renders the error view with message
`'No account specified.'` and dispatches no provider call; any other value
leads to exactly one `Transaction.fetch` call for that (escaped) account with
`since` thirty days before now and `expand=['merchant']`. -/
theorem c7_transactions_account_required
    (fetchT : String → Int → List String → Except MonzoError Unit)
    (now : Int) (form : Form) :
    ((form.get? "account" = none ∨ form.get? "account" = some "" ∨
        form.get? "account" = some "Please Select") →
      transactions_for_account fetchT now form =
        { calls := [],
          outcome := .ok (.render "error.html" (some "No account specified.")) }) ∧
    (∀ v, form.get? "account" = some v → v ≠ "" → v ≠ "Please Select" →
      (transactions_for_account fetchT now form).calls =
        [Call.transactionFetch (escape v) (now - thirtyDays) ["merchant"]]) := by
  constructor
  · rintro (h | h | h)
    · simp [transactions_for_account, h]
    · have he : escape "" = "" := rfl
      simp [transactions_for_account, h, he]
    · have hp : escape "Please Select" = "Please Select" := rfl
      simp [transactions_for_account, h, hp]
  · intro v hv h1 h2
    have he := escape_ne_empty h1
    have hp := escape_ne_please h2
    cases hf : fetchT (escape v) (now - thirtyDays) ["merchant"] with
    | ok u => simp [transactions_for_account, hv, he, hp, thirtyDays] at hf ⊢
              simp [hf]
    | error e =>
      cases e <;>
        (simp [transactions_for_account, hv, he, hp, thirtyDays] at hf ⊢
         simp [hf])

/-- Witness for C7 at concrete inputs: the placeholder account renders the
error view with no provider call, and a real account id leads to exactly the
expected `Transaction.fetch` call. -/
theorem c7_transactions_account_required_witness :
    (transactions_for_account (fun _ _ _ => Except.ok ()) 0 [("account", "Please Select")] =
      { calls := [],
        outcome := .ok (.render "error.html" (some "No account specified.")) }) ∧
    (transactions_for_account (fun _ _ _ => Except.ok ()) 0 [("account", "acc_123")]).calls =
      [Call.transactionFetch "acc_123" (0 - thirtyDays) ["merchant"]] := by
  constructor
  · exact (c7_transactions_account_required (fun _ _ _ => Except.ok ()) 0
      [("account", "Please Select")]).1 (Or.inr (Or.inr rfl))
  · have h := (c7_transactions_account_required (fun _ _ _ => Except.ok ()) 0
      [("account", "acc_123")]).2 "acc_123" rfl (by decide) (by decide)
    simpa using h

/-- C8: a GET to `/setup/callback/` whose query string lacks `code` or lacks
`state` renders the error view with message `'Missing parameters.'`, without
constructing the `Authentication` adapter and without invoking the
authorization-code exchange. -/
theorem c8_callback_missing_params
    (authenticate : String → String → Except MonzoError Unit) (args : Form)
    (h : args.get? "code" = none ∨ args.get? "state" = none) :
    setup_callback authenticate args =
      { constructed := false, exchange_invoked := none,
        outcome := .ok (.render "error.html" (some "Missing parameters.")) } := by
  rcases h with h | h
  · cases hs : args.get? "state" <;> simp [setup_callback, h, hs]
  · cases hc : args.get? "code" <;> simp [setup_callback, h, hc]

/-- Witness for C8: a callback request with an empty query string renders the
missing-parameters error view and performs no exchange. -/
theorem c8_callback_missing_params_witness :
    setup_callback (fun _ _ => Except.ok ()) [("state", "st")] =
      { constructed := false, exchange_invoked := none,
        outcome := .ok (.render "error.html" (some "Missing parameters.")) } :=
  c8_callback_missing_params (fun _ _ => Except.ok ()) [("state", "st")] (Or.inl rfl)

/-- C5: a POST to `/setup/` whose submitted client id or client secret is
empty does not write the credential store and re-renders the setup form with
a validation message. -/
theorem c5_setup_empty_fields_not_persisted
    (auth_url : String → String → String) (h : MonzoHandler) (form : Form)
    (a b : String)
    (ha : form.get? "client_id" = some a) (hb : form.get? "client_secret" = some b)
    (hempty : a = "" ∨ b = "") :
    setup auth_url h "POST" form =
      { wrote_args := none, store := h,
        outcome := .ok (.render "setup.html" (some
          "Ensure you enter both a Client ID and a Client Secret.")) } := by
  have hcond : (escape a).length = 0 ∨ (escape b).length = 0 := by
    rcases hempty with rfl | rfl
    · exact Or.inl (by simp [str_length_eq_zero_iff, escape_eq_empty_iff])
    · exact Or.inr (by simp [str_length_eq_zero_iff, escape_eq_empty_iff])
  simp [setup, ha, hb, hcond]

/-- Witness for C5: submitting an empty client secret leaves the store
untouched and re-renders the setup form. -/
theorem c5_setup_empty_fields_not_persisted_witness :
    setup (fun cid cs => cid ++ "|" ++ cs) ⟨"old_id", "old_secret"⟩ "POST"
        [("client_id", "my_id"), ("client_secret", "")] =
      { wrote_args := none, store := ⟨"old_id", "old_secret"⟩,
        outcome := .ok (.render "setup.html" (some
          "Ensure you enter both a Client ID and a Client Secret.")) } :=
  c5_setup_empty_fields_not_persisted (fun cid cs => cid ++ "|" ++ cs)
    ⟨"old_id", "old_secret"⟩ [("client_id", "my_id"), ("client_secret", "")]
    "my_id" "" rfl rfl (Or.inr rfl)

theorem escape_length_ne_zero {v : String} (h : v ≠ "") : (escape v).length ≠ 0 :=
  fun c => escape_ne_empty h ((str_length_eq_zero_iff (escape v)).mp c)

/-- C6 counterexample: the claim says the two submitted values are persisted,
but the handler persists their HTML-escaped forms — submitting client id
`a<b` writes `a&lt;b` to the store, which differs from the submitted value. -/
theorem c6_counterexample_escaped_persisted :
    (setup (fun cid cs => cid ++ "|" ++ cs) ⟨"", ""⟩ "POST"
        [("client_id", "a<b"), ("client_secret", "s")]).wrote_args =
      some ("a&lt;b", "s") ∧
    ("a&lt;b" : String) ≠ "a<b" := by
  exact ⟨rfl, by decide⟩

/-- C6 (amended): a POST to `/setup/` with both fields non-empty persists the
HTML-escaped client id and client secret to the credential store and responds
with a redirect to the authorization URL derived from those (escaped, stored)
credentials. -/
theorem c6_setup_persists_and_redirects
    (auth_url : String → String → String) (h : MonzoHandler) (form : Form)
    (a b : String)
    (ha : form.get? "client_id" = some a) (hb : form.get? "client_secret" = some b)
    (hna : a ≠ "") (hnb : b ≠ "") :
    setup auth_url h "POST" form =
      { wrote_args := some (escape a, escape b),
        store := set_client_details h (escape a) (escape b),
        outcome := .ok (.redirect (auth_url (escape a) (escape b))) } := by
  have hca := escape_length_ne_zero hna
  have hcb := escape_length_ne_zero hnb
  simp [setup, ha, hb, hca, hcb, set_client_details]

/-- Witness for the amended C6: submitting `my_id` / `my_secret` writes both
to the store and redirects to the URL built from them. -/
theorem c6_setup_persists_and_redirects_witness :
    setup (fun cid cs => cid ++ "|" ++ cs) ⟨"", ""⟩ "POST"
        [("client_id", "my_id"), ("client_secret", "my_secret")] =
      { wrote_args := some ("my_id", "my_secret"),
        store := ⟨"my_id", "my_secret"⟩,
        outcome := .ok (.redirect "my_id|my_secret") } := by
  have h := c6_setup_persists_and_redirects (fun cid cs => cid ++ "|" ++ cs)
    ⟨"", ""⟩ [("client_id", "my_id"), ("client_secret", "my_secret")]
    "my_id" "my_secret" rfl rfl (by decide) (by decide)
  simpa using h

theorem form_get_cons_ne (k' v k : String) (form : Form) (h : (k' == k) = false) :
    Form.get? ((k', v) :: form) k = Form.get? form k := by
  simp [Form.get?, List.find?, h]

/-- Any raw request dispatched by the POST branch of `raw_request` has its
`authenticated` flag, `request_type`, and `path` determined by the form as
the source computes them, and its parameter set empty when the `parameters`
field is absent. -/
theorem raw_request_calls_spec
    (loads : String → Except Unit Json)
    (make_request : RawReq → Except MonzoError Json)
    (form : Form) (r : RawReq)
    (hr : Call.rawRequest r ∈ (raw_request loads make_request "POST" form).calls) :
    r.authenticated = (match form.get? "authenticated" with
      | none => true
      | some s => decide (s ≠ "")) ∧
    r.request_type = (match form.get? "authenticated" with
      | none => PyVal.strList ["get"]
      | some s => PyVal.str s) ∧
    r.path = (match form.get? "path" with
      | none => PyVal.strList ["/"]
      | some p => PyVal.str p) ∧
    (form.get? "parameters" = none → r.parameters = Json.obj []) := by
  simp only [raw_request] at hr
  rw [if_neg (by decide : ¬ ("POST" = "GET"))] at hr
  split at hr
  · simp at hr
  · split at hr
    · simp at hr
    · rename_i params hP
      split at hr <;>
      · simp only [List.mem_singleton, Call.rawRequest.injEq] at hr
        subst hr
        refine ⟨rfl, rfl, rfl, ?_⟩
        intro hp
        rw [hp] at hP
        simp at hP
        exact hP.symm

/-- A concrete stand-in for `json.loads` used in witnesses: parses only the
two-character empty-object literal, failing on everything else. -/
def loads0 : String → Except Unit Json :=
  fun s => if s = "\x7b\x7d" then .ok (Json.obj []) else .error ()

/-- A concrete provider for witnesses: every raw request succeeds with
`null`. -/
def prov0 : RawReq → Except MonzoError Json := fun _ => .ok Json.null

/-- The raw request dispatched for the form `{authenticated: "put"}`. -/
def req1 : RawReq :=
  { path := PyVal.strList ["/"], authenticated := true,
    request_type := PyVal.str "put", headers := Json.obj [],
    parameters := Json.obj [] }

/-- The raw request dispatched for the form `{authenticated: ""}`. -/
def req0 : RawReq :=
  { path := PyVal.strList ["/"], authenticated := false,
    request_type := PyVal.str "", headers := Json.obj [],
    parameters := Json.obj [] }

/-- C3: in the `/raw_request` POST handler the HTTP method is read from the
form field named `authenticated`: whenever that field holds a non-empty
string `s`, every dispatched raw request uses `s` as its method, and the
handler's result is unchanged by any `request_type` form field. -/
theorem c3_raw_request_method_reads_authenticated_field
    (loads : String → Except Unit Json)
    (make_request : RawReq → Except MonzoError Json)
    (form : Form) (s : String)
    (hs : form.get? "authenticated" = some s) (_hne : s ≠ "") :
    (∀ r, Call.rawRequest r ∈ (raw_request loads make_request "POST" form).calls →
        r.request_type = PyVal.str s) ∧
    (∀ v, raw_request loads make_request "POST" (("request_type", v) :: form) =
        raw_request loads make_request "POST" form) := by
  constructor
  · intro r hr
    have h := (raw_request_calls_spec loads make_request form r hr).2.1
    rw [hs] at h
    exact h
  · intro v
    have h1 := form_get_cons_ne "request_type" v "authenticated" form (by decide)
    have h2 := form_get_cons_ne "request_type" v "headers" form (by decide)
    have h3 := form_get_cons_ne "request_type" v "parameters" form (by decide)
    have h4 := form_get_cons_ne "request_type" v "path" form (by decide)
    simp only [raw_request, h1, h2, h3, h4]

/-- Witness for C3: with `authenticated=put` the dispatched method is `put`,
and adding a `request_type=delete` field changes nothing. -/
theorem c3_raw_request_method_reads_authenticated_field_witness :
    req1.request_type = PyVal.str "put" ∧
    raw_request loads0 prov0 "POST" [("request_type", "delete"), ("authenticated", "put")] =
      raw_request loads0 prov0 "POST" [("authenticated", "put")] := by
  have h := c3_raw_request_method_reads_authenticated_field loads0 prov0
    [("authenticated", "put")] "put" rfl (by decide)
  refine ⟨h.1 req1 ?_, h.2 "delete"⟩
  show Call.rawRequest req1 ∈ [Call.rawRequest req1]
  exact List.mem_singleton.mpr rfl

/-- C10: the `authenticated` flag of every dispatched raw request is the
Python truthiness of the form field: it is `false` exactly when the field is
present and holds the empty string, and `true` when the field is absent or
holds any non-empty string (such as `"false"` or `"0"`). -/
theorem c10_raw_request_authenticated_truthiness
    (loads : String → Except Unit Json)
    (make_request : RawReq → Except MonzoError Json)
    (form : Form) (r : RawReq)
    (hr : Call.rawRequest r ∈ (raw_request loads make_request "POST" form).calls) :
    r.authenticated = false ↔ form.get? "authenticated" = some "" := by
  have h := (raw_request_calls_spec loads make_request form r hr).1
  cases hA : form.get? "authenticated" with
  | none => rw [hA] at h; simp [h]
  | some s => rw [hA] at h; simp [h]

/-- Witness for C10: the form `{authenticated: ""}` dispatches its raw
request unauthenticated. -/
theorem c10_raw_request_authenticated_truthiness_witness :
    req0.authenticated = false :=
  (c10_raw_request_authenticated_truthiness loads0 prov0 [("authenticated", "")] req0
    (by show Call.rawRequest req0 ∈ [Call.rawRequest req0]
        exact List.mem_singleton.mpr rfl)).mpr rfl

/-- C9: a `/raw_request` POST with no `parameters` field dispatches with an
empty parameter set, and one whose `headers` field is not valid JSON fails
with the JSON decode error before any provider request is dispatched. -/
theorem c9_raw_request_param_default_and_headers_error
    (loads : String → Except Unit Json)
    (make_request : RawReq → Except MonzoError Json)
    (form : Form) :
    (form.get? "parameters" = none →
      ∀ r, Call.rawRequest r ∈ (raw_request loads make_request "POST" form).calls →
        r.parameters = Json.obj []) ∧
    (∀ hv, form.get? "headers" = some hv → loads hv = .error () →
      raw_request loads make_request "POST" form =
        { calls := [], outcome := .error .jsonDecode }) := by
  constructor
  · intro hp r hr
    exact (raw_request_calls_spec loads make_request form r hr).2.2.2 hp
  · intro hv hH hE
    simp [raw_request, hH, hE]

/-- Witness for C9: a form with no `parameters` field dispatches the empty
parameter set, and a form whose `headers` field does not parse yields the
decode error with no dispatched call. -/
theorem c9_raw_request_param_default_and_headers_error_witness :
    req1.parameters = Json.obj [] ∧
    raw_request loads0 prov0 "POST" [("headers", "not json")] =
      { calls := [], outcome := .error .jsonDecode } := by
  constructor
  · exact (c9_raw_request_param_default_and_headers_error loads0 prov0
      [("authenticated", "put")]).1 rfl req1
      (by show Call.rawRequest req1 ∈ [Call.rawRequest req1]
          exact List.mem_singleton.mpr rfl)
  · exact (c9_raw_request_param_default_and_headers_error loads0 prov0
      [("headers", "not json")]).2 "not json" rfl rfl

/-- C4 counterexample: a `MonzoHTTPError` raised by the provider call inside
the `/accounts` handler is not caught — it propagates out of the handler,
contradicting the claim that every provider-side error kind is converted to a
rendered message view in every handler. -/
theorem c4_counterexample_http_error_propagates :
    (accounts true (Except.error MonzoError.httpError)).outcome =
      Except.error (AppError.monzo MonzoError.httpError) := rfl

/-- C4 (amended): each handler catches a fixed, route-specific subset of the
provider error kinds and converts exactly those to rendered message views:
`/accounts` catches `PermissionsError` only; the feed-item handler's
account-listing call is unprotected (every error kind propagates) while its
`FeedItem.create` call catches `HTTPError` and `PermissionsError`;
`/transactions` catches `PermissionsError` only; `/setup/callback/` catches
`AuthenticationFailure` and `ServerFailure`; `get_raw_request` (serving
`/raw_request`) catches `PermissionsError` and `HTTPError`, and the kinds it
does not catch propagate out of the `/raw_request` handler; every other
provider-side error kind propagates out of its handler. -/
theorem c4_error_catching_per_handler :
    (∀ e, (accounts true (.error e)).outcome =
      if e = MonzoError.permissionsError then
        Except.ok (View.render "error.html" (some "The request resulted in a permissions error."))
      else Except.error (AppError.monzo e)) ∧
    (∀ e create method form,
      (feed_iten (.error e) create method form).outcome = Except.error (AppError.monzo e)) ∧
    (∀ (e : MonzoError) (al : List Account) (form : Form) (t a : String),
      form.get? "title" = some t → form.get? "account" = some a →
      (feed_iten (.ok al) (fun _ => .error e) "POST" form).outcome =
        if e = MonzoError.httpError then
          Except.ok (View.render "error.html" (some "The Monzo API did not understand the request."))
        else if e = MonzoError.permissionsError then
          Except.ok (View.render "error.html" (some "The request resulted in a permissions error."))
        else Except.error (AppError.monzo e)) ∧
    (∀ (e : MonzoError) (now : Int) (form : Form) (v : String),
      form.get? "account" = some v → v ≠ "" → v ≠ "Please Select" →
      (transactions_for_account (fun _ _ _ => .error e) now form).outcome =
        if e = MonzoError.permissionsError then
          Except.ok (View.render "error.html" (some
            ("The API returned a permissions issue. Either the token has expired or the account cannot return "
              ++ "transactions.")))
        else Except.error (AppError.monzo e)) ∧
    (∀ (e : MonzoError) (args : Form) (c s : String),
      args.get? "code" = some c → args.get? "state" = some s →
      (setup_callback (fun _ _ => .error e) args).outcome =
        if e = MonzoError.authenticationError then
          Except.ok (View.render "error.html" (some "Monzo authentication error."))
        else if e = MonzoError.serverError then
          Except.ok (View.render "error.html" (some "Monzo server error."))
        else Except.error (AppError.monzo e)) ∧
    (∀ (e : MonzoError) (req : RawReq),
      get_raw_request (fun _ => .error e) req =
        if e = MonzoError.permissionsError then
          Except.ok (Json.obj [("message", Json.str "The request resulted in a permissions error.")])
        else if e = MonzoError.httpError then
          Except.ok (Json.obj [("message", Json.str "The request appears invalid.")])
        else Except.error e) ∧
    (∀ (e : MonzoError) (loads : String → Except Unit Json) (form : Form),
      form.get? "headers" = none → form.get? "parameters" = none →
      e ≠ MonzoError.permissionsError → e ≠ MonzoError.httpError →
      (raw_request loads (fun _ => .error e) "POST" form).outcome =
        Except.error (AppError.monzo e)) := by
  refine ⟨?_, ?_, ?_, ?_, ?_, ?_, ?_⟩
  · intro e; cases e <;> rfl
  · intro e create method form; rfl
  · intro e al form t a ht ha
    cases e <;> simp [feed_iten, ht, ha]
  · intro e now form v hv h1 h2
    have he := escape_ne_empty h1
    have hp := escape_ne_please h2
    cases e <;> simp [transactions_for_account, hv, he, hp]
  · intro e args c s hc hs
    cases e <;> simp [setup_callback, hc, hs]
  · intro e req; cases e <;> rfl
  · intro e loads form hH hP hne1 hne2
    cases e <;> simp_all [raw_request, get_raw_request]

/-- Witness for the amended C4: one concrete instance per conjunct — the
uncaught kinds propagate, and `get_raw_request` substitutes its message
record for a caught `MonzoHTTPError`. -/
theorem c4_error_catching_per_handler_witness :
    (accounts true (.error .serverError)).outcome =
      Except.error (AppError.monzo .serverError) ∧
    (feed_iten (.error .permissionsError) (fun _ => Except.ok ()) "POST" []).outcome =
      Except.error (AppError.monzo .permissionsError) ∧
    (feed_iten (.ok []) (fun _ => .error .serverError) "POST"
        [("title", "t"), ("account", "a")]).outcome =
      Except.error (AppError.monzo .serverError) ∧
    (transactions_for_account (fun _ _ _ => .error .httpError) 0 [("account", "acc")]).outcome =
      Except.error (AppError.monzo .httpError) ∧
    (setup_callback (fun _ _ => .error .permissionsError) [("code", "c"), ("state", "st")]).outcome =
      Except.error (AppError.monzo .permissionsError) ∧
    get_raw_request (fun _ => .error .httpError) req1 =
      Except.ok (Json.obj [("message", Json.str "The request appears invalid.")]) ∧
    (raw_request loads0 (fun _ => .error .authenticationError) "POST" []).outcome =
      Except.error (AppError.monzo .authenticationError) := by
  have h := c4_error_catching_per_handler
  refine ⟨by simpa using h.1 .serverError,
          h.2.1 .permissionsError _ _ _,
          by simpa using h.2.2.1 .serverError [] [("title", "t"), ("account", "a")] "t" "a" rfl rfl,
          by simpa using h.2.2.2.1 .httpError 0 [("account", "acc")] "acc" rfl (by decide) (by decide),
          by simpa using h.2.2.2.2.1 .permissionsError [("code", "c"), ("state", "st")] "c" "st" rfl rfl,
          by simpa using h.2.2.2.2.2.1 .httpError req1,
          by simpa using h.2.2.2.2.2.2 .authenticationError loads0 [] rfl rfl (by decide) (by decide)⟩

/-- C2 counterexample: the `/raw_request` handler passes the `path` form
field to the dispatched provider request verbatim — submitting
`path=<script>` dispatches the unescaped string, which differs from its
HTML-escaped form, contradicting the claim that the path field is escaped
before any downstream call. -/
theorem c2_counterexample_raw_path_unescaped :
    (raw_request loads0 prov0 "POST" [("path", "<script>")]).calls =
      [Call.rawRequest
        { path := PyVal.str "<script>", authenticated := true,
          request_type := PyVal.strList ["get"], headers := Json.obj [],
          parameters := Json.obj [] }] ∧
    escape "<script>" ≠ "<script>" :=
  ⟨rfl, by decide⟩

/-- C2 (amended): the user-supplied text fields of `/feed_item` (title,
optional parameters, account, feed-item URL), of `/transactions` (account),
and of `/setup/` (client id, client secret) are HTML-escaped before being
passed downstream; the `/raw_request` fields are not — its `path` is passed
to the dispatched request verbatim. -/
theorem c2_escaping_per_handler
    (fetch : Except MonzoError (List Account))
    (create : FeedItemCall → Except MonzoError Unit)
    (fetchT : String → Int → List String → Except MonzoError Unit)
    (auth_url : String → String → String) (h : MonzoHandler)
    (loads : String → Except Unit Json)
    (make_request : RawReq → Except MonzoError Json)
    (now : Int) (form : Form) :
    (∀ c, Call.feedItemCreate c ∈ (feed_iten fetch create "POST" form).calls →
      (∀ kv ∈ c.params, ∃ raw, form.get? kv.1 = some raw ∧ kv.2 = escape raw) ∧
      (∃ raw, form.get? "account" = some raw ∧ c.account_id = escape raw) ∧
      (∀ u, c.url = some u → ∃ raw, form.get? "feed_item_url" = some raw ∧ u = escape raw)) ∧
    (∀ a s ex, Call.transactionFetch a s ex ∈ (transactions_for_account fetchT now form).calls →
      ∃ raw, form.get? "account" = some raw ∧ a = escape raw) ∧
    (∀ x y, (setup auth_url h "POST" form).wrote_args = some (x, y) →
      ∃ ra rb, form.get? "client_id" = some ra ∧ form.get? "client_secret" = some rb ∧
        x = escape ra ∧ y = escape rb) ∧
    (∀ p, form.get? "path" = some p →
      ∀ r, Call.rawRequest r ∈ (raw_request loads make_request "POST" form).calls →
        r.path = PyVal.str p) := by
  refine ⟨?_, ?_, ?_, ?_⟩
  · intro c hc
    cases fetch with
    | error e => simp [feed_iten] at hc
    | ok al =>
      cases ht : form.get? "title" with
      | none => simp [feed_iten, ht] at hc
      | some title =>
        cases ha : form.get? "account" with
        | none => simp [feed_iten, ht, ha] at hc
        | some account0 =>
          simp only [feed_iten, ht, ha] at hc
          rw [if_neg (by decide : ¬ ("POST" = "GET"))] at hc
          split at hc <;>
          · simp at hc
            subst hc
            refine ⟨?_, ⟨account0, rfl, rfl⟩, ?_⟩
            · intro kv hkv
              rcases List.mem_cons.mp hkv with hk | hk
              · subst hk
                exact ⟨title, ht, rfl⟩
              · rcases List.mem_filterMap.mp hk with ⟨p, hp, hf⟩
                rcases Option.map_eq_some'.mp hf with ⟨v, hv, hkv2⟩
                subst hkv2
                exact ⟨v, hv, rfl⟩
            · intro u hu
              rcases Option.map_eq_some'.mp hu with ⟨raw, hraw, hv⟩
              exact ⟨raw, hraw, hv.symm⟩
  · intro a s ex hmem
    cases hv : form.get? "account" with
    | none => simp [transactions_for_account, hv] at hmem
    | some v =>
      by_cases hve : escape v = ""
      · simp [transactions_for_account, hv, hve] at hmem
      · by_cases hvp : escape v = "Please Select"
        · simp [transactions_for_account, hv, hve, hvp] at hmem
        · simp only [transactions_for_account, hv, Option.getD_some] at hmem
          rw [if_pos (by simp [hve])] at hmem
          rw [if_neg hvp] at hmem
          split at hmem <;>
          · simp at hmem
            exact ⟨v, rfl, hmem.1⟩
  · intro x y hxy
    cases hc : form.get? "client_id" with
    | none => simp [setup, hc] at hxy
    | some ra =>
      cases hcs : form.get? "client_secret" with
      | none => simp [setup, hc, hcs] at hxy
      | some rb =>
        by_cases hlen : (escape ra).length = 0 ∨ (escape rb).length = 0
        · simp [setup, hc, hcs, hlen] at hxy
        · simp [setup, hc, hcs, hlen] at hxy
          exact ⟨ra, rb, rfl, rfl, hxy.1.symm, hxy.2.symm⟩
  · intro p hp r hr
    have hpath := (raw_request_calls_spec loads make_request form r hr).2.2.1
    rw [hp] at hpath
    exact hpath

/-- A concrete form with HTML-special characters in every relevant field,
used to witness the escaping policy. -/
def c2form : Form :=
  [("title", "t<"), ("account", "a&c"), ("body", "b>"), ("feed_item_url", "u<v"),
   ("client_id", "i<d"), ("client_secret", "s>e"), ("path", "p<q")]

/-- The `FeedItem.create` call the handler assembles from `c2form`. -/
def c2call : FeedItemCall :=
  { account_id := "a&amp;c", params := [("title", "t&lt;"), ("body", "b&gt;")],
    url := some "u&lt;v" }

/-- The raw request the handler dispatches from `c2form`. -/
def c2req : RawReq :=
  { path := PyVal.str "p<q", authenticated := true,
    request_type := PyVal.strList ["get"], headers := Json.obj [],
    parameters := Json.obj [] }

/-- Witness for the amended C2 at `c2form`: the title, account, URL and
credential values reaching downstream calls are the escapes of the submitted
values, while the raw-request path is the submitted value verbatim. -/
theorem c2_escaping_per_handler_witness :
    (∃ raw, Form.get? c2form "title" = some raw ∧ ("t&lt;" : String) = escape raw) ∧
    (∃ raw, Form.get? c2form "account" = some raw ∧ c2call.account_id = escape raw) ∧
    (∃ raw, Form.get? c2form "feed_item_url" = some raw ∧ ("u&lt;v" : String) = escape raw) ∧
    (∃ raw, Form.get? c2form "account" = some raw ∧ ("a&amp;c" : String) = escape raw) ∧
    (∃ ra rb, Form.get? c2form "client_id" = some ra ∧ Form.get? c2form "client_secret" = some rb ∧
      ("i&lt;d" : String) = escape ra ∧ ("s&gt;e" : String) = escape rb) ∧
    c2req.path = PyVal.str "p<q" := by
  have h := c2_escaping_per_handler (Except.ok []) (fun _ => Except.ok ())
    (fun _ _ _ => Except.ok ()) (fun cid cs => cid ++ "|" ++ cs) ⟨"", ""⟩
    loads0 prov0 0 c2form
  have hfeed := h.1 c2call
    (by show Call.feedItemCreate c2call ∈ [Call.accountFetch, Call.feedItemCreate c2call]
        exact List.mem_cons_of_mem _ (List.mem_singleton.mpr rfl))
  refine ⟨?_, hfeed.2.1, ?_, ?_, ?_, ?_⟩
  · exact hfeed.1 ("title", "t&lt;") (by simp [c2call])
  · exact hfeed.2.2 "u&lt;v" rfl
  · exact h.2.1 "a&amp;c" (0 - thirtyDays) ["merchant"]
      (by show Call.transactionFetch "a&amp;c" (0 - thirtyDays) ["merchant"] ∈
            [Call.transactionFetch "a&amp;c" (0 - thirtyDays) ["merchant"]]
          exact List.mem_singleton.mpr rfl)
  · exact h.2.2.1 "i&lt;d" "s&gt;e" rfl
  · exact h.2.2.2 "p<q" rfl c2req
      (by show Call.rawRequest c2req ∈ [Call.rawRequest c2req]
          exact List.mem_singleton.mpr rfl)

end MonzoViewer
